import Mathlib

/-
Verification of the data-loading and serving glue in `src/pygwalker/app.py`
(PyGWalker dockerized application).  Pure helper functions are translated
directly; filesystem access, the pandas parsers, the PyGWalker renderer and
the filename sanitizer are modelled as explicit oracle parameters; the
Flask endpoints become pure functions from a request plus the current
application state to an HTTP status code plus the next application state.
Error messages that in Python interpolate floating-point formatted sizes
keep only the part relevant to the claims (which check failed / which
message text is produced); Unicode-only behaviour of `str.lower`,
`str.strip` and `int()` (non-ASCII digits) is abstracted to their ASCII
behaviour, which the claims never exercise.  String helpers are written by
structural recursion on the character list so that every definition
evaluates inside the kernel.
-/

/-- Split a character list on `/` (the POSIX path separator). -/
def splitOnSlash : List Char → List (List Char)
  | [] => [[]]
  | '/' :: rest => [] :: splitOnSlash rest
  | c :: rest =>
    match splitOnSlash rest with
    | g :: gs => (c :: g) :: gs
    | [] => [[c]]

/-- Model of `pathlib.PurePosixPath(p).name`: the last path component after
splitting on `/`, with empty components and `.` components dropped. -/
def pathName (p : String) : String :=
  String.mk ((((splitOnSlash p.toList).filter
    (fun g => !(g == []) && !(g == ['.']))).getLast?).getD [])

/-- ASCII model of `str.lower`. -/
def toLowerStr (s : String) : String :=
  String.mk (s.toList.map Char.toLower)

/-- Model of `c in s` for a single character (Python `in` on strings). -/
def containsChar (s : String) (c : Char) : Bool :=
  s.toList.contains c

/-- Model of the `suffix` of a single path component, following the
`pathlib` rule: the substring from the last dot onward, provided that dot
is neither the first nor the last character of the name; otherwise `""`. -/
def nameSuffix (name : String) : String :=
  let cs := name.toList
  match (cs.enum.filter (fun q => q.2 == '.')).getLast? with
  | some iq => if 0 < iq.1 ∧ iq.1 < cs.length - 1 then String.mk (cs.drop iq.1) else ""
  | none => ""

/-- Model of `pathlib.Path(p).suffix`. -/
def pathSuffix (p : String) : String :=
  nameSuffix (pathName p)

/-- `ALLOWED_EXTENSIONS` from `validate_uploaded_file` (app.py line 419),
in source order. -/
def ALLOWED_EXTENSIONS : List String :=
  [".csv", ".xlsx", ".xls", ".json", ".parquet"]

/-- Whether the character list contains two consecutive dots
(Python `'..' in filename`). -/
def hasDoubleDot : List Char → Bool
  | '.' :: '.' :: _ => true
  | _ :: rest => hasDoubleDot rest
  | [] => false

/-- The four checks of `validate_uploaded_file`, as tags.  The Python
function returns human-readable message strings; only which check failed is
relevant, so the messages are abstracted to these tags. -/
inductive UploadError where
  | noFilename
  | unsupportedType
  | tooLarge
  | traversal
  deriving DecidableEq, Repr

/-- `validate_uploaded_file` (app.py lines 406-447): checks, in order,
filename non-empty, extension allowed, size within the ceiling, and no
path-traversal characters; returns `(is_valid, error)`. -/
def validate_uploaded_file (filename : String) (file_size : Nat) (max_size_mb : Nat) :
    Bool × Option UploadError :=
  if filename = "" then (false, some .noFilename)
  else if toLowerStr (pathSuffix filename) ∉ ALLOWED_EXTENSIONS then (false, some .unsupportedType)
  else if file_size > max_size_mb * 1024 * 1024 then (false, some .tooLarge)
  else if hasDoubleDot filename.toList || containsChar filename '/' || containsChar filename '\\' then
    (false, some .traversal)
  else (true, none)

/-- Whether an individual check of `validate_uploaded_file` passes,
independent of the other checks. -/
def uploadCheckPasses (filename : String) (file_size : Nat) (max_size_mb : Nat) :
    UploadError → Bool
  | .noFilename => decide (filename ≠ "")
  | .unsupportedType => decide (toLowerStr (pathSuffix filename) ∈ ALLOWED_EXTENSIONS)
  | .tooLarge => decide (file_size ≤ max_size_mb * 1024 * 1024)
  | .traversal =>
      !(hasDoubleDot filename.toList || containsChar filename '/' || containsChar filename '\\')

/-- The order in which `validate_uploaded_file` runs its four checks. -/
def uploadCheckOrder : List UploadError :=
  [.noFilename, .unsupportedType, .tooLarge, .traversal]

/-- A directory entry as seen by `Path.iterdir()`: its final name and
whether it is a regular file. -/
structure DirEntry where
  name : String
  is_file : Bool
  deriving DecidableEq, Repr

/-- The states a scanned directory path can be in: absent, present but not
a directory, enumerable, or failing during enumeration (permission or other
OS error raised by `iterdir`). -/
inductive DirState where
  | missing
  | notDir
  | enumFail
  | listing (entries : List DirEntry)
  deriving DecidableEq, Repr

/-- Lexicographic code-point comparison of character lists: the order
Python uses when comparing the string sort keys. -/
def lexLE : List Char → List Char → Bool
  | [], _ => true
  | _ :: _, [] => false
  | a :: as, b :: bs =>
    if a.toNat < b.toNat then true
    else if b.toNat < a.toNat then false
    else lexLE as bs

/-- Case-insensitive filename order used by `scan_data_directory`
(`key=lambda p: p.name.lower()`). -/
def dirEntryLE (a b : DirEntry) : Prop :=
  lexLE (toLowerStr a.name).toList (toLowerStr b.name).toList = true

instance : DecidableRel dirEntryLE :=
  fun a b =>
    inferInstanceAs (Decidable (lexLE (toLowerStr a.name).toList (toLowerStr b.name).toList = true))

instance : IsTotal DirEntry dirEntryLE := by
  constructor
  intro a b
  unfold dirEntryLE
  generalize (toLowerStr a.name).toList = x
  generalize (toLowerStr b.name).toList = y
  induction x generalizing y with
  | nil => left; rfl
  | cons c cs ih =>
    cases y with
    | nil => right; rfl
    | cons d ds =>
      by_cases h1 : c.toNat < d.toNat
      · left; simp [lexLE, h1]
      · by_cases h2 : d.toNat < c.toNat
        · right; simp [lexLE, h2]
        · rcases ih ds with h | h
          · left; simp [lexLE, h1, h2, h]
          · right; simp [lexLE, h1, h2, h]

instance : IsTrans DirEntry dirEntryLE := by
  constructor
  intro a b c
  unfold dirEntryLE
  generalize (toLowerStr a.name).toList = x
  generalize (toLowerStr b.name).toList = y
  generalize (toLowerStr c.name).toList = z
  induction x generalizing y z with
  | nil => intro _ _; rfl
  | cons cx xs ih =>
    cases y with
    | nil => intro h1 _; exact absurd h1 (by simp [lexLE])
    | cons cy ys =>
      cases z with
      | nil => intro _ h2; exact absurd h2 (by simp [lexLE])
      | cons cz zs =>
        intro h1 h2
        by_cases hxy1 : cx.toNat < cy.toNat
        · by_cases hyz1 : cy.toNat < cz.toNat
          · simp [lexLE, show cx.toNat < cz.toNat by omega]
          · by_cases hyz2 : cz.toNat < cy.toNat
            · simp [lexLE, hyz1, hyz2] at h2
            · simp [lexLE, show cx.toNat < cz.toNat by omega]
        · by_cases hxy2 : cy.toNat < cx.toNat
          · simp [lexLE, hxy1, hxy2] at h1
          · simp only [lexLE, if_neg hxy1, if_neg hxy2] at h1
            by_cases hyz1 : cy.toNat < cz.toNat
            · simp [lexLE, show cx.toNat < cz.toNat by omega]
            · by_cases hyz2 : cz.toNat < cy.toNat
              · simp [lexLE, hyz1, hyz2] at h2
              · simp only [lexLE, if_neg hyz1, if_neg hyz2] at h2
                simp only [lexLE, if_neg (show ¬ cx.toNat < cz.toNat by omega),
                  if_neg (show ¬ cz.toNat < cx.toNat by omega)]
                exact ih ys zs h1 h2

/-- `supported_extensions` from `scan_data_directory` (app.py line 124). -/
def supported_extensions : List String :=
  [".csv", ".xlsx", ".xls", ".parquet", ".json"]

/-- `scan_data_directory` (app.py lines 98-147): on a readable directory,
keep the regular files with a supported extension and sort them by
lowercased name (Python's `list.sort` is stable, as is `insertionSort`,
so the two agree exactly); all failure states yield `[]`. -/
def scan_data_directory : DirState → List DirEntry
  | .missing => []
  | .notDir => []
  | .enumFail => []
  | .listing entries =>
    List.insertionSort dirEntryLE
      (entries.filter (fun e =>
        e.is_file && supported_extensions.contains (toLowerStr (nameSuffix e.name))))

/-- A `pathlib.Path` value: just its string form; `name` is derived. -/
structure PyPath where
  str : String
  deriving DecidableEq, Repr

/-- ASCII model of `str.strip()`. -/
def pyStrip (s : String) : String :=
  String.mk (((s.toList.dropWhile Char.isWhitespace).reverse.dropWhile
    Char.isWhitespace).reverse)

/-- After the leading digit of a Python integer literal: a sequence of
digits with single underscores allowed between digits. -/
def digitTail : List Char → Bool
  | [] => true
  | '_' :: c :: rest => c.isDigit && digitTail rest
  | ['_'] => false
  | c :: rest => c.isDigit && digitTail rest

/-- Numeric value of a digit chain, skipping grouping underscores. -/
def digitsVal (cs : List Char) : Nat :=
  cs.foldl (fun a c => if c == '_' then a else a * 10 + (c.toNat - '0'.toNat)) 0

/-- A nonempty chain of ASCII digits with legal underscore grouping. -/
def pyNatChain : List Char → Option Nat
  | [] => none
  | c :: rest => if c.isDigit && digitTail rest then some (digitsVal (c :: rest)) else none

/-- ASCII model of Python `int(s)` on an already-stripped string: optional
sign followed by digits with underscore grouping; anything else raises
`ValueError`, modelled as `none`. -/
def pyInt (s : String) : Option Int :=
  match s.toList with
  | '+' :: rest => (pyNatChain rest).map (fun n => (n : Int))
  | '-' :: rest => (pyNatChain rest).map (fun n => -(n : Int))
  | cs => (pyNatChain cs).map (fun n => (n : Int))

/-- The 1-based index of the first file whose name equals the default
filename (`default_index` in `prompt_for_file_selection`). -/
def findDefaultIndex (files : List PyPath) (default_file : String) : Option Nat :=
  match files with
  | [] => none
  | f :: fs =>
    if pathName f.str = default_file then some 1
    else (findDefaultIndex fs default_file).map (· + 1)

/-- The fallback selection: the default entry when a default index exists,
else the first entry (app.py lines 226-232 and 277-282). -/
def fallbackChoice (files : List PyPath) (default_index : Option Nat) : PyPath :=
  match default_index with
  | some i => files.getD (i - 1) ⟨""⟩
  | none => files.getD 0 ⟨""⟩

/-- The retry loop of `prompt_for_file_selection` (app.py lines 218-282),
by remaining attempts.  Each iteration reads one line (reading past the
end of the supplied input raises, is caught by the generic handler, and
counts an attempt without consuming a line); a stripped-empty line returns
the fallback at once; a non-numeric or out-of-range line counts an attempt;
a valid number returns that entry.  Exhausting the attempts returns the
fallback. -/
def selectionLoop (files : List PyPath) (default_index : Option Nat) :
    Nat → List String → PyPath × List String
  | 0, inputs => (fallbackChoice files default_index, inputs)
  | k + 1, [] => selectionLoop files default_index k []
  | k + 1, line :: rest =>
    let s := pyStrip line
    if s = "" then (fallbackChoice files default_index, rest)
    else
      match pyInt s with
      | none => selectionLoop files default_index k rest
      | some sel =>
        if sel < 1 ∨ sel > (files.length : Int) then selectionLoop files default_index k rest
        else (files.getD (sel - 1).toNat ⟨""⟩, rest)

/-- `prompt_for_file_selection` (app.py lines 150-282), returning the
chosen path together with the unconsumed input lines.  An empty file list
short-circuits to the synthetic path `/data/<default_file>` without
reading any input. -/
def prompt_for_file_selection (files : List PyPath) (default_file : String)
    (inputs : List String) (max_attempts : Nat) : PyPath × List String :=
  if files.isEmpty then (⟨"/data/" ++ default_file⟩, inputs)
  else selectionLoop files (findDefaultIndex files default_file) max_attempts inputs

/-- An input line on which the selector's validation fails for a list of
`n` files: nonempty after stripping, and not a numeral in `[1, n]`. -/
def invalidSelection (n : Nat) (s : String) : Bool :=
  !(pyStrip s == "") &&
    (match pyInt (pyStrip s) with
     | none => true
     | some k => decide (k < 1 ∨ k > (n : Int)))

/-- Python exception classes relevant to the loader and endpoints. -/
inductive ExcKind where
  | valueError
  | fileNotFoundError
  | permissionError
  | other (name : String)
  deriving DecidableEq, Repr

/-- A raised Python exception: its class and its `str(e)` message. -/
structure Exc where
  kind : ExcKind
  msg : String
  deriving DecidableEq, Repr

/-- A pandas DataFrame, reduced to what the program observes: the row
count and the ordered columns with their dtype names. -/
structure DataFrame where
  nrows : Nat
  cols : List (String × String)
  deriving DecidableEq, Repr

/-- pandas `DataFrame.empty`: true iff either axis has length 0. -/
def DataFrame.isEmpty (df : DataFrame) : Bool :=
  df.nrows == 0 || df.cols.isEmpty

/-- The four parser families dispatched by extension. -/
inductive FileFormat where
  | csv
  | excel
  | parquet
  | json
  deriving DecidableEq, Repr

/-- The unsupported-extension message raised inside both loaders, naming
the allowed set in source order. -/
def unsupportedFormatMsg (ext : String) : String :=
  "Unsupported file format: " ++ ext ++
    ". Supported formats: .csv, .xlsx, .xls, .parquet, .json"

/-- The extension dispatch of both loaders (`.xlsx` and `.xls` share the
spreadsheet parser). -/
def formatOf (ext : String) : Option FileFormat :=
  if ext = ".csv" then some .csv
  else if ext = ".xlsx" ∨ ext = ".xls" then some .excel
  else if ext = ".parquet" then some .parquet
  else if ext = ".json" then some .json
  else none

/-- `load_data` (app.py lines 315-354), with the pandas readers supplied
as an oracle.  The whole dispatch sits inside `try`, so even the
unsupported-format `ValueError` is re-raised wrapped in the generic
load-error message. -/
def load_data (readers : FileFormat → Except Exc DataFrame) (file_path : String) :
    Except Exc DataFrame :=
  let ext := toLowerStr (pathSuffix file_path)
  let body : Except Exc DataFrame :=
    match formatOf ext with
    | some fmt => readers fmt
    | none => .error ⟨.valueError, unsupportedFormatMsg ext⟩
  match body with
  | .ok df => .ok df
  | .error e => .error ⟨.valueError, "Error loading file: " ++ e.msg⟩

/-- `load_data_from_file_storage` (app.py lines 357-403): identical
dispatch over the in-memory buffer, with the upload wording. -/
def load_data_from_file_storage (readers : FileFormat → Except Exc DataFrame)
    (filename : String) : Except Exc DataFrame :=
  let ext := toLowerStr (pathSuffix filename)
  let body : Except Exc DataFrame :=
    match formatOf ext with
    | some fmt => readers fmt
    | none => .error ⟨.valueError, unsupportedFormatMsg ext⟩
  match body with
  | .ok df => .ok df
  | .error e => .error ⟨.valueError, "Error parsing uploaded file: " ++ e.msg⟩

/-- What the filesystem reports about one path: `exists()`, `is_file()`
and `os.access(..., R_OK)`. -/
structure FSView where
  present : Bool
  is_file : Bool
  readable : Bool
  deriving DecidableEq, Repr

/-- `validate_file_path` (app.py lines 285-312). -/
def validate_file_path (fs : String → FSView) (file_path : String) : Except Exc String :=
  if !(fs file_path).present then
    .error ⟨.fileNotFoundError, "File not found: " ++ file_path⟩
  else if !(fs file_path).is_file then
    .error ⟨.valueError, "Path is not a file: " ++ file_path⟩
  else if !(fs file_path).readable then
    .error ⟨.permissionError, "File is not readable: " ++ file_path⟩
  else .ok file_path

/-- The `file_info` dictionaries built by the endpoints. -/
structure FileInfo where
  name : String
  path : String
  rows : Nat
  columns : Nat
  column_names : List String
  dtypes : List (String × String)
  deriving DecidableEq, Repr

/-- The `new_file_info` dictionary built from a path and a dataframe. -/
def mkFileInfo (name path : String) (df : DataFrame) : FileInfo :=
  ⟨name, path, df.nrows, df.cols.length, df.cols.map Prod.fst, df.cols⟩

/-- The server's state slot `app_state`: current dataframe, current file
info, current rendered artifact. -/
structure AppState where
  current_df : DataFrame
  current_file_info : FileInfo
  pyg_html : String
  deriving DecidableEq, Repr

/-- `load_file_endpoint` (app.py lines 867-948) as a pure function of the
request body and the current state, returning the HTTP status and the next
state.  `fs` and the pandas readers and renderer are oracles.  Exception
classes other than the three raised by `validate_file_path`/`load_data`
would fall to the outer handler (500). -/
def load_file_endpoint (fs : String → FSView)
    (readers : String → FileFormat → Except Exc DataFrame)
    (to_html : DataFrame → String)
    (body : Option String) (st : AppState) : Nat × AppState :=
  match body with
  | none => (400, st)
  | some file_path_str =>
    match validate_file_path fs file_path_str with
    | .error e =>
      match e.kind with
      | .fileNotFoundError => (404, st)
      | .permissionError => (400, st)
      | .valueError => (400, st)
      | .other _ => (500, st)
    | .ok validated_path =>
      match load_data (readers validated_path) validated_path with
      | .error e =>
        match e.kind with
        | .valueError => (400, st)
        | _ => (500, st)
      | .ok df =>
        (200, ⟨df, mkFileInfo (pathName validated_path) validated_path df, to_html df⟩)

/-- `upload_file_endpoint` (app.py lines 950-1056) as a pure function of
the uploaded `(filename, size)` pair (`none` when no `file` field is in
the request) and the current state.  `secure_name` models
`werkzeug.utils.secure_filename`. -/
def upload_file_endpoint (secure_name : String → String)
    (readers : FileFormat → Except Exc DataFrame)
    (to_html : DataFrame → String)
    (upload : Option (String × Nat)) (st : AppState) : Nat × AppState :=
  match upload with
  | none => (400, st)
  | some (filename, file_size) =>
    if filename = "" then (400, st)
    else
      let safe_filename := secure_name filename
      let v := validate_uploaded_file safe_filename file_size 100
      if v.1 then
        match load_data_from_file_storage readers safe_filename with
        | .error e =>
          match e.kind with
          | .valueError => (400, st)
          | _ => (500, st)
        | .ok df =>
          if df.isEmpty then (400, st)
          else (200, ⟨df, mkFileInfo safe_filename ("uploaded:" ++ safe_filename) df,
            to_html df⟩)
      else (400, st)

/-- The triple held in the state slot, for the concurrency model. -/
structure SlotTriple where
  df : DataFrame
  info : FileInfo
  html : String
  deriving DecidableEq, Repr

/-- `FileInfo` describes a dataframe when its row count, column count and
column names are those of the dataframe. -/
def describes (fi : FileInfo) (df : DataFrame) : Prop :=
  fi.rows = df.nrows ∧ fi.columns = df.cols.length ∧ fi.column_names = df.cols.map Prod.fst

/-- A consistent slot triple: the info describes the dataframe. -/
def SlotTriple.consistent (t : SlotTriple) : Prop :=
  describes t.info t.df

/-- System configuration for one writer (an in-flight `/api/load-file` or
upload critical section) and one reader (`/info` style read) sharing the
state slot under `app_state['lock']`.  `lockOwner = some true` means the
writer holds the lock, `some false` the reader.  Program counters: the
writer runs acquire, write df, write info, write html, release (app.py
lines 922-926); the reader runs acquire, read df, read info, read html,
release (lines 825-830 generalized to all three fields). -/
structure SysConfig where
  wpc : Nat
  rpc : Nat
  lockOwner : Option Bool
  slot : SlotTriple
  obsDf : Option DataFrame
  obsInfo : Option FileInfo
  obsHtml : Option String
  deriving DecidableEq, Repr

/-- Initial configuration: both threads at their first instruction, lock
free, slot holding the old triple, nothing observed yet. -/
def initConfig (oldT : SlotTriple) : SysConfig :=
  ⟨0, 0, none, oldT, none, none, none⟩

/-- Interleaving small-step semantics of the writer/reader pair.  The
lock is the only synchronization: acquire succeeds only when free. -/
inductive SysStep (newT : SlotTriple) : SysConfig → SysConfig → Prop where
  | wAcquire (c : SysConfig) (h : c.wpc = 0) (hl : c.lockOwner = none) :
      SysStep newT c { c with wpc := 1, lockOwner := some true }
  | wSetDf (c : SysConfig) (h : c.wpc = 1) :
      SysStep newT c { c with wpc := 2, slot := { c.slot with df := newT.df } }
  | wSetInfo (c : SysConfig) (h : c.wpc = 2) :
      SysStep newT c { c with wpc := 3, slot := { c.slot with info := newT.info } }
  | wSetHtml (c : SysConfig) (h : c.wpc = 3) :
      SysStep newT c { c with wpc := 4, slot := { c.slot with html := newT.html } }
  | wRelease (c : SysConfig) (h : c.wpc = 4) :
      SysStep newT c { c with wpc := 5, lockOwner := none }
  | rAcquire (c : SysConfig) (h : c.rpc = 0) (hl : c.lockOwner = none) :
      SysStep newT c { c with rpc := 1, lockOwner := some false }
  | rReadDf (c : SysConfig) (h : c.rpc = 1) :
      SysStep newT c { c with rpc := 2, obsDf := some c.slot.df }
  | rReadInfo (c : SysConfig) (h : c.rpc = 2) :
      SysStep newT c { c with rpc := 3, obsInfo := some c.slot.info }
  | rReadHtml (c : SysConfig) (h : c.rpc = 3) :
      SysStep newT c { c with rpc := 4, obsHtml := some c.slot.html }
  | rRelease (c : SysConfig) (h : c.rpc = 4) :
      SysStep newT c { c with rpc := 5, lockOwner := none }

/-- Reachability from the initial configuration by interleaved steps. -/
inductive SysReachable (newT : SlotTriple) (oldT : SlotTriple) : SysConfig → Prop where
  | refl : SysReachable newT oldT (initConfig oldT)
  | tail {c c2 : SysConfig} (hr : SysReachable newT oldT c) (hs : SysStep newT c c2) :
      SysReachable newT oldT c2

/-- The inductive invariant of the interleaving: the lock is held by
whichever thread is inside its critical section, the slot contents are
determined by the writer's progress, and the reader's observations are
snapshots of the (stable) slot taken inside its critical section. -/
def SysInv (oldT newT : SlotTriple) (c : SysConfig) : Prop :=
  c.wpc ≤ 5 ∧ c.rpc ≤ 5 ∧
  (c.lockOwner = some true ↔ (1 ≤ c.wpc ∧ c.wpc ≤ 4)) ∧
  (c.lockOwner = some false ↔ (1 ≤ c.rpc ∧ c.rpc ≤ 4)) ∧
  (c.wpc ≤ 1 → c.slot = oldT) ∧
  (c.wpc = 2 → c.slot = ⟨newT.df, oldT.info, oldT.html⟩) ∧
  (c.wpc = 3 → c.slot = ⟨newT.df, newT.info, oldT.html⟩) ∧
  (4 ≤ c.wpc → c.slot = newT) ∧
  (c.rpc ≤ 1 → c.obsDf = none ∧ c.obsInfo = none ∧ c.obsHtml = none) ∧
  (c.rpc = 2 → c.obsDf = some c.slot.df ∧ c.obsInfo = none ∧ c.obsHtml = none) ∧
  (c.rpc = 3 → c.obsDf = some c.slot.df ∧ c.obsInfo = some c.slot.info ∧ c.obsHtml = none) ∧
  (c.rpc = 4 → c.obsDf = some c.slot.df ∧ c.obsInfo = some c.slot.info ∧
    c.obsHtml = some c.slot.html) ∧
  (c.rpc = 5 →
    ((c.obsDf = some oldT.df ∧ c.obsInfo = some oldT.info ∧ c.obsHtml = some oldT.html) ∨
     (c.obsDf = some newT.df ∧ c.obsInfo = some newT.info ∧ c.obsHtml = some newT.html)))

example : pathSuffix "../secret.csv" = ".csv" := by decide
example : pathSuffix "data.tar.gz" = ".gz" := by decide
example : pathSuffix ".csv" = "" := by decide
example : pathSuffix "noext" = "" := by decide
example : toLowerStr "A.CsV" = "a.csv" := by decide
example : validate_uploaded_file "data.csv" 5 100 = (true, none) := by decide
example : validate_uploaded_file "../secret.csv" 5 100 = (false, some .traversal) := by decide

/-- C1: with the default 100 MB ceiling, `validate_uploaded_file` passes
iff the filename is non-empty, its lowercased extension is allowed, the
size is at most 100 MB, and the filename has no `..`, `/` or `\`; the
reported failure is always that of the first failing check in source
order; `../secret.csv` is rejected regardless of size, and a 101 MB
file is rejected even with an allowed extension. -/
theorem validate_uploaded_file_spec (filename : String) (size : Nat) :
    ((validate_uploaded_file filename size 100).1 = true ↔
      (filename ≠ "" ∧ toLowerStr (pathSuffix filename) ∈ ALLOWED_EXTENSIONS ∧
       size ≤ 100 * 1024 * 1024 ∧
       hasDoubleDot filename.toList = false ∧ containsChar filename '/' = false ∧
       containsChar filename '\\' = false)) ∧
    (validate_uploaded_file filename size 100).2 =
      uploadCheckOrder.find? (fun c => !(uploadCheckPasses filename size 100 c)) ∧
    (validate_uploaded_file "../secret.csv" size 100).1 = false ∧
    (toLowerStr (pathSuffix filename) ∈ ALLOWED_EXTENSIONS →
      (validate_uploaded_file filename (101 * 1024 * 1024) 100).1 = false) := by
  refine ⟨?_, ?_, ?_, ?_⟩
  · by_cases h1 : filename = ""
    · rw [validate_uploaded_file, if_pos h1]
      constructor
      · intro h; exact absurd h (by decide)
      · rintro ⟨hne, -⟩; exact absurd h1 hne
    · by_cases h2 : toLowerStr (pathSuffix filename) ∈ ALLOWED_EXTENSIONS
      · by_cases h3 : size > 100 * 1024 * 1024
        · rw [validate_uploaded_file, if_neg h1, if_neg (not_not_intro h2), if_pos h3]
          constructor
          · intro h; exact absurd h (by decide)
          · rintro ⟨-, -, hle, -⟩; omega
        · by_cases h4 : (hasDoubleDot filename.toList || containsChar filename '/' ||
              containsChar filename '\\') = true
          · rw [validate_uploaded_file, if_neg h1, if_neg (not_not_intro h2), if_neg h3,
              if_pos h4]
            constructor
            · intro h; exact absurd h (by decide)
            · rintro ⟨-, -, -, ha, hb, hc⟩
              rw [ha, hb, hc] at h4
              exact absurd h4 (by decide)
          · rw [validate_uploaded_file, if_neg h1, if_neg (not_not_intro h2), if_neg h3,
              if_neg h4]
            simp only [Bool.or_eq_true, not_or] at h4
            exact ⟨fun _ => ⟨h1, h2, by omega, Bool.eq_false_iff.mpr h4.1.1,
              Bool.eq_false_iff.mpr h4.1.2, Bool.eq_false_iff.mpr h4.2⟩, fun _ => rfl⟩
      · rw [validate_uploaded_file, if_neg h1, if_pos h2]
        constructor
        · intro h; exact absurd h (by decide)
        · rintro ⟨-, hmem, -⟩; exact absurd hmem h2
  · by_cases h1 : filename = ""
    · rw [validate_uploaded_file, if_pos h1]
      have hA : decide (filename ≠ "") = false := by subst h1; decide
      simp [uploadCheckOrder, uploadCheckPasses, List.find?, hA]
    · have hA : decide (filename ≠ "") = true := decide_eq_true h1
      by_cases h2 : toLowerStr (pathSuffix filename) ∈ ALLOWED_EXTENSIONS
      · have hB : decide (toLowerStr (pathSuffix filename) ∈ ALLOWED_EXTENSIONS) = true :=
          decide_eq_true h2
        by_cases h3 : size > 100 * 1024 * 1024
        · rw [validate_uploaded_file, if_neg h1, if_neg (not_not_intro h2), if_pos h3]
          have hC : decide (size ≤ 100 * 1024 * 1024) = false := decide_eq_false (by omega)
          simp [uploadCheckOrder, uploadCheckPasses, List.find?, hA, hB, hC]
        · have hC : decide (size ≤ 100 * 1024 * 1024) = true := decide_eq_true (by omega)
          by_cases h4 : (hasDoubleDot filename.toList || containsChar filename '/' ||
              containsChar filename '\\') = true
          · rw [validate_uploaded_file, if_neg h1, if_neg (not_not_intro h2), if_neg h3,
              if_pos h4]
            have h4d : (hasDoubleDot filename.data || containsChar filename '/' ||
                containsChar filename '\\') = true := h4
            simp [uploadCheckOrder, uploadCheckPasses, List.find?, hA, hB, hC, h4, h4d]
          · rw [validate_uploaded_file, if_neg h1, if_neg (not_not_intro h2), if_neg h3,
              if_neg h4]
            have hD : (hasDoubleDot filename.toList || containsChar filename '/' ||
                containsChar filename '\\') = false := Bool.eq_false_iff.mpr h4
            have hDd : (hasDoubleDot filename.data || containsChar filename '/' ||
                containsChar filename '\\') = false := hD
            simp [uploadCheckOrder, uploadCheckPasses, List.find?, hA, hB, hC, hD, hDd]
      · rw [validate_uploaded_file, if_neg h1, if_pos h2]
        have hB : decide (toLowerStr (pathSuffix filename) ∈ ALLOWED_EXTENSIONS) = false :=
          decide_eq_false h2
        simp [uploadCheckOrder, uploadCheckPasses, List.find?, hA, hB]
  · rw [validate_uploaded_file, if_neg (by decide), if_neg (by decide)]
    by_cases h : size > 100 * 1024 * 1024
    · rw [if_pos h]
    · rw [if_neg h, if_pos (by decide)]
  · intro hext
    have hne : filename ≠ "" := by
      intro h
      rw [h] at hext
      exact absurd hext (by decide)
    rw [validate_uploaded_file, if_neg hne, if_neg (not_not_intro hext), if_pos (by norm_num)]

/-- Concrete instance of `validate_uploaded_file_spec`. -/
theorem validate_uploaded_file_spec_witness :
    (validate_uploaded_file "../secret.csv" 10 100).1 = false :=
  (validate_uploaded_file_spec "../secret.csv" 10).2.2.1

example :
    scan_data_directory (.listing
      [⟨"b.CSV", true⟩, ⟨"notes.txt", true⟩, ⟨"A.csv", true⟩, ⟨"sub.csv", false⟩]) =
      [⟨"A.csv", true⟩, ⟨"b.CSV", true⟩] := by decide

/-- C2: the scanner returns exactly the regular files with a supported
lowercased extension, sorted case-insensitively by name whatever the
enumeration order was, and every failure state (missing path, non-directory
path, enumeration error) yields the empty list. -/
theorem scan_data_directory_spec (entries : List DirEntry) :
    (scan_data_directory (.listing entries)).Perm
      (entries.filter (fun e =>
        e.is_file && supported_extensions.contains (toLowerStr (nameSuffix e.name)))) ∧
    (scan_data_directory (.listing entries)).Sorted dirEntryLE ∧
    (∀ e, e ∈ scan_data_directory (.listing entries) ↔
      e ∈ entries ∧ e.is_file = true ∧
      toLowerStr (nameSuffix e.name) ∈ supported_extensions) ∧
    scan_data_directory .missing = [] ∧
    scan_data_directory .notDir = [] ∧
    scan_data_directory .enumFail = [] := by
  refine ⟨List.perm_insertionSort _ _, List.sorted_insertionSort _ _, ?_, rfl, rfl, rfl⟩
  intro e
  show e ∈ List.insertionSort dirEntryLE _ ↔ _
  rw [(List.perm_insertionSort dirEntryLE _).mem_iff, List.mem_filter]
  simp [and_assoc]

example : pyInt "12" = some 12 := by decide
example : pyInt "1_0" = some 10 := by decide
example : pyInt "abc" = none := by decide
example : pyInt "1_" = none := by decide
example : pyStrip "  2 " = "2" := by decide
example :
    prompt_for_file_selection [⟨"/data/a.csv"⟩, ⟨"/data/b.csv"⟩] "b.csv" [" 2 "] 5 =
      (⟨"/data/b.csv"⟩, []) := by decide
example :
    prompt_for_file_selection [⟨"/data/a.csv"⟩, ⟨"/data/b.csv"⟩] "b.csv" ["7", "1"] 5 =
      (⟨"/data/a.csv"⟩, []) := by decide

/-- A successful `findDefaultIndex` is a 1-based in-range index of an
entry carrying the default name. -/
theorem findDefaultIndex_some (d : String) :
    ∀ (files : List PyPath) (j : Nat), findDefaultIndex files d = some j →
      1 ≤ j ∧ j ≤ files.length ∧ pathName (files.getD (j - 1) ⟨""⟩).str = d := by
  intro files
  induction files with
  | nil => intro j h; cases h
  | cons f fs ih =>
    intro j h
    rw [findDefaultIndex] at h
    by_cases hf : pathName f.str = d
    · rw [if_pos hf] at h
      injection h with h
      subst h
      exact ⟨le_refl 1, by simp, by simpa using hf⟩
    · rw [if_neg hf] at h
      cases hfd : findDefaultIndex fs d with
      | none => rw [hfd] at h; cases h
      | some j2 =>
        rw [hfd] at h
        injection h with h
        subst h
        obtain ⟨h1, h2, h3⟩ := ih j2 hfd
        refine ⟨show 1 ≤ j2 + 1 by omega, show j2 + 1 ≤ fs.length + 1 by omega, ?_⟩
        rw [show j2 + 1 - 1 = (j2 - 1) + 1 by omega, List.getD_cons_succ]
        exact h3

/-- If no entry carries the default name, `findDefaultIndex` finds
nothing. -/
theorem findDefaultIndex_none (d : String) :
    ∀ files : List PyPath, (∀ f ∈ files, pathName f.str ≠ d) →
      findDefaultIndex files d = none := by
  intro files
  induction files with
  | nil => intro _; rfl
  | cons f fs ih =>
    intro h
    rw [findDefaultIndex, if_neg (h f (List.mem_cons_self f fs)),
      ih (fun g hg => h g (List.mem_cons_of_mem f hg))]
    rfl

/-- An entry carrying the default name forces `findDefaultIndex` to find
something. -/
theorem findDefaultIndex_mem (d : String) :
    ∀ (files : List PyPath) (f : PyPath), f ∈ files → pathName f.str = d →
      findDefaultIndex files d ≠ none := by
  intro files
  induction files with
  | nil => intro f hmem _ _; exact absurd hmem (List.not_mem_nil f)
  | cons g gs ih =>
    intro f hmem hname h
    rw [findDefaultIndex] at h
    by_cases hg : pathName g.str = d
    · rw [if_pos hg] at h; cases h
    · rw [if_neg hg] at h
      rcases List.mem_cons.mp hmem with rfl | hmem2
      · exact hg hname
      · cases hfd : findDefaultIndex gs d with
        | none => exact ih f hmem2 hname hfd
        | some j => rw [hfd] at h; cases h

/-- When some entry carries the default name, the fallback choice carries
it too. -/
theorem fallbackChoice_default (files : List PyPath) (d : String)
    (hex : ∃ f ∈ files, pathName f.str = d) :
    pathName (fallbackChoice files (findDefaultIndex files d)).str = d := by
  cases hfd : findDefaultIndex files d with
  | none =>
    obtain ⟨f, hmem, hname⟩ := hex
    exact absurd hfd (findDefaultIndex_mem d files f hmem hname)
  | some j =>
    obtain ⟨-, -, h3⟩ := findDefaultIndex_some d files j hfd
    simpa [fallbackChoice] using h3

/-- The fallback choice of a non-empty list is an element of the list. -/
theorem fallbackChoice_mem (files : List PyPath) (hne : files ≠ []) (d : String) :
    fallbackChoice files (findDefaultIndex files d) ∈ files := by
  cases hfd : findDefaultIndex files d with
  | none =>
    rw [fallbackChoice]
    cases files with
    | nil => exact absurd rfl hne
    | cons f fs => exact List.mem_cons_self f fs
  | some j =>
    obtain ⟨h1, h2, -⟩ := findDefaultIndex_some d files j hfd
    have hlt : j - 1 < files.length := by omega
    rw [fallbackChoice, List.getD_eq_getElem?_getD, List.getElem?_eq_getElem hlt]
    exact List.getElem_mem hlt

/-- When no entry carries the default name, the fallback choice is the
first entry. -/
theorem fallbackChoice_first (files : List PyPath) (hne : files ≠ []) (d : String)
    (hnone : ∀ f ∈ files, pathName f.str ≠ d) :
    fallbackChoice files (findDefaultIndex files d) = files.head hne := by
  rw [findDefaultIndex_none d files hnone]
  cases files with
  | nil => exact absurd rfl hne
  | cons f fs => rfl

/-- One loop iteration on a stripped-empty line returns the fallback. -/
theorem selectionLoop_empty_line (files : List PyPath) (idx : Option Nat) (line : String)
    (rest : List String) (m : Nat) (hline : pyStrip line = "") :
    (selectionLoop files idx m (line :: rest)).1 = fallbackChoice files idx := by
  cases m with
  | zero => rfl
  | succ k => simp [selectionLoop, hline]

/-- Exhausting `m` invalid lines consumes exactly `m` lines and returns
the fallback. -/
theorem selectionLoop_all_invalid (files : List PyPath) (idx : Option Nat) :
    ∀ (m : Nat) (inputs : List String), m ≤ inputs.length →
      (∀ s ∈ inputs, invalidSelection files.length s = true) →
      selectionLoop files idx m inputs = (fallbackChoice files idx, inputs.drop m) := by
  intro m
  induction m with
  | zero => intro inputs _ _; simp [selectionLoop]
  | succ k ih =>
    intro inputs hlen hinv
    cases inputs with
    | nil => simp at hlen
    | cons line rest =>
      have hl := hinv line (List.mem_cons_self line rest)
      rw [invalidSelection, Bool.and_eq_true] at hl
      obtain ⟨hl1, hl2⟩ := hl
      have hs : pyStrip line ≠ "" := by simpa using hl1
      have hrec := ih rest (by simpa using hlen)
        (fun s hs2 => hinv s (List.mem_cons_of_mem line hs2))
      cases hpi : pyInt (pyStrip line) with
      | none =>
        simp only [selectionLoop, hpi, if_neg hs]
        rw [hrec]
        rfl
      | some sel =>
        rw [hpi] at hl2
        have hrange : sel < 1 ∨ sel > (files.length : Int) := of_decide_eq_true hl2
        simp only [selectionLoop, hpi, if_neg hs, if_pos hrange]
        rw [hrec]
        rfl

/-- C3: on a non-empty file list, when the first input line strips to
empty, the selector returns an entry of the list: one named like the
default filename when such an entry is in the list, else the first
entry. -/
theorem selector_empty_input (files : List PyPath) (d line : String) (rest : List String)
    (m : Nat) (hne : files ≠ []) (hline : pyStrip line = "") :
    (prompt_for_file_selection files d (line :: rest) m).1 ∈ files ∧
    ((∃ f ∈ files, pathName f.str = d) →
      pathName ((prompt_for_file_selection files d (line :: rest) m).1).str = d) ∧
    ((∀ f ∈ files, pathName f.str ≠ d) →
      (prompt_for_file_selection files d (line :: rest) m).1 = files.head hne) := by
  have hie : files.isEmpty = false := by
    cases files with
    | nil => exact absurd rfl hne
    | cons a as => rfl
  have hred : (prompt_for_file_selection files d (line :: rest) m).1 =
      fallbackChoice files (findDefaultIndex files d) := by
    rw [prompt_for_file_selection, if_neg (by simp [hie])]
    exact selectionLoop_empty_line files _ line rest m hline
  rw [hred]
  exact ⟨fallbackChoice_mem files hne d, fun hex => fallbackChoice_default files d hex,
    fun hnone => fallbackChoice_first files hne d hnone⟩

/-- Concrete instance of `selector_empty_input`. -/
theorem selector_empty_input_witness :
    pathName ((prompt_for_file_selection [⟨"/data/a.csv"⟩, ⟨"/data/sample_data.csv"⟩]
      "sample_data.csv" [""] 5).1).str = "sample_data.csv" :=
  (selector_empty_input [⟨"/data/a.csv"⟩, ⟨"/data/sample_data.csv"⟩] "sample_data.csv"
    "" [] 5 (by decide) (by decide)).2.1 ⟨⟨"/data/sample_data.csv"⟩, by decide, by decide⟩

/-- C4: on a non-empty file list, when every supplied line is invalid and
at least `m = max_attempts` lines are supplied, the selector consumes
exactly `m` lines and falls back to the default-named entry (else the
first entry) without reading further. -/
theorem selector_exhaustion (files : List PyPath) (d : String) (inputs : List String)
    (m : Nat) (hne : files ≠ []) (hlen : m ≤ inputs.length)
    (hinv : ∀ s ∈ inputs, invalidSelection files.length s = true) :
    (prompt_for_file_selection files d inputs m).2 = inputs.drop m ∧
    (prompt_for_file_selection files d inputs m).1 ∈ files ∧
    ((∃ f ∈ files, pathName f.str = d) →
      pathName ((prompt_for_file_selection files d inputs m).1).str = d) ∧
    ((∀ f ∈ files, pathName f.str ≠ d) →
      (prompt_for_file_selection files d inputs m).1 = files.head hne) := by
  have hie : files.isEmpty = false := by
    cases files with
    | nil => exact absurd rfl hne
    | cons a as => rfl
  have hred : prompt_for_file_selection files d inputs m =
      (fallbackChoice files (findDefaultIndex files d), inputs.drop m) := by
    rw [prompt_for_file_selection, if_neg (by simp [hie])]
    exact selectionLoop_all_invalid files _ m inputs hlen hinv
  rw [hred]
  exact ⟨rfl, fallbackChoice_mem files hne d, fun hex => fallbackChoice_default files d hex,
    fun hnone => fallbackChoice_first files hne d hnone⟩

/-- Concrete instance of `selector_exhaustion`: three invalid inputs,
ceiling 3, no fourth read. -/
theorem selector_exhaustion_witness :
    (prompt_for_file_selection [⟨"/data/sample_data.csv"⟩] "sample_data.csv"
      ["abc", "99", "0"] 3).2 = [] ∧
    pathName ((prompt_for_file_selection [⟨"/data/sample_data.csv"⟩] "sample_data.csv"
      ["abc", "99", "0"] 3).1).str = "sample_data.csv" := by
  have h := selector_exhaustion [⟨"/data/sample_data.csv"⟩] "sample_data.csv"
    ["abc", "99", "0"] 3 (by decide) (by decide) (by decide)
  exact ⟨h.1, h.2.2.1 ⟨⟨"/data/sample_data.csv"⟩, by decide, by decide⟩⟩

/-- C9: with an empty file list the selector reads no input at all and
returns the synthetic path `/data/<default_file>`, whether or not such a
file exists, bypassing the default-in-list lookup. -/
theorem selector_empty_list_synthetic (d : String) (inputs : List String) (m : Nat) :
    prompt_for_file_selection [] d inputs m = (⟨"/data/" ++ d⟩, inputs) := rfl

/-- Every error escaping `load_data` is a `ValueError`. -/
theorem load_data_error_kind (readers : FileFormat → Except Exc DataFrame) (p : String)
    (e : Exc) (h : load_data readers p = .error e) : e.kind = ExcKind.valueError := by
  simp only [load_data] at h
  cases hfmt : formatOf (toLowerStr (pathSuffix p)) with
  | none =>
    rw [hfmt] at h
    injection h with h
    subst h
    rfl
  | some fmt =>
    simp only [hfmt] at h
    cases hr : readers fmt with
    | ok df => rw [hr] at h; cases h
    | error e0 =>
      rw [hr] at h
      injection h with h
      subst h
      rfl

/-- Every error escaping `load_data_from_file_storage` is a `ValueError`. -/
theorem load_storage_error_kind (readers : FileFormat → Except Exc DataFrame) (p : String)
    (e : Exc) (h : load_data_from_file_storage readers p = .error e) :
    e.kind = ExcKind.valueError := by
  simp only [load_data_from_file_storage] at h
  cases hfmt : formatOf (toLowerStr (pathSuffix p)) with
  | none =>
    rw [hfmt] at h
    injection h with h
    subst h
    rfl
  | some fmt =>
    simp only [hfmt] at h
    cases hr : readers fmt with
    | ok df => rw [hr] at h; cases h
    | error e0 =>
      rw [hr] at h
      injection h with h
      subst h
      rfl

/-- C5: both loaders either return a dataframe or fail with a
`ValueError`: an extension outside the supported set (exactly the
complement of the dispatch table) yields the unsupported-format message
naming the allowed set, and any underlying parser failure is re-raised as
the generic load error carrying the original message, so no
library-specific error kind ever escapes. -/
theorem format_loader_spec (readers : FileFormat → Except Exc DataFrame) (p : String) :
    (∀ e, load_data readers p = .error e → e.kind = ExcKind.valueError) ∧
    (∀ e, load_data_from_file_storage readers p = .error e → e.kind = ExcKind.valueError) ∧
    (formatOf (toLowerStr (pathSuffix p)) = none ↔
      toLowerStr (pathSuffix p) ∉ supported_extensions) ∧
    (formatOf (toLowerStr (pathSuffix p)) = none →
      load_data readers p = .error ⟨.valueError,
        "Error loading file: " ++ unsupportedFormatMsg (toLowerStr (pathSuffix p))⟩ ∧
      load_data_from_file_storage readers p = .error ⟨.valueError,
        "Error parsing uploaded file: " ++ unsupportedFormatMsg (toLowerStr (pathSuffix p))⟩) ∧
    (∀ fmt e0, formatOf (toLowerStr (pathSuffix p)) = some fmt → readers fmt = .error e0 →
      load_data readers p = .error ⟨.valueError, "Error loading file: " ++ e0.msg⟩ ∧
      load_data_from_file_storage readers p =
        .error ⟨.valueError, "Error parsing uploaded file: " ++ e0.msg⟩) ∧
    (∀ fmt df, formatOf (toLowerStr (pathSuffix p)) = some fmt → readers fmt = .ok df →
      load_data readers p = .ok df ∧ load_data_from_file_storage readers p = .ok df) := by
  refine ⟨fun e h => load_data_error_kind readers p e h,
    fun e h => load_storage_error_kind readers p e h, ?_, ?_, ?_, ?_⟩
  · rw [formatOf]
    split_ifs with a1 a2 a3 a4
    · simp [supported_extensions, a1]
    · rcases a2 with a2 | a2 <;> simp [supported_extensions, a2]
    · simp [supported_extensions, a3]
    · simp [supported_extensions, a4]
    · have hx : ¬ toLowerStr (pathSuffix p) = ".xlsx" := fun h => a2 (Or.inl h)
      have hx2 : ¬ toLowerStr (pathSuffix p) = ".xls" := fun h => a2 (Or.inr h)
      simp [supported_extensions, a1, hx, hx2, a3, a4]
  · intro hnone
    constructor
    · simp [load_data, hnone]
    · simp [load_data_from_file_storage, hnone]
  · intro fmt e0 hfmt hr
    constructor
    · simp [load_data, hfmt, hr]
    · simp [load_data_from_file_storage, hfmt, hr]
  · intro fmt df hfmt hr
    constructor
    · simp [load_data, hfmt, hr]
    · simp [load_data_from_file_storage, hfmt, hr]

/-- Concrete instance of `format_loader_spec`: a library error is
re-signaled as a `ValueError` carrying the original message, and an
unsupported extension is reported naming the allowed set. -/
theorem format_loader_spec_witness :
    load_data (fun _ => .error ⟨.other "ParserError", "boom"⟩) "/data/x.csv" =
      .error ⟨.valueError, "Error loading file: boom"⟩ ∧
    load_data (fun _ => .error ⟨.other "ParserError", "boom"⟩) "/data/x.foo" =
      .error ⟨.valueError, "Error loading file: " ++
        unsupportedFormatMsg (toLowerStr (pathSuffix "/data/x.foo"))⟩ := by
  have h := format_loader_spec (fun _ => .error ⟨.other "ParserError", "boom"⟩) "/data/x.csv"
  have h2 := format_loader_spec (fun _ => .error ⟨.other "ParserError", "boom"⟩) "/data/x.foo"
  exact ⟨(h.2.2.2.2.1 .csv ⟨.other "ParserError", "boom"⟩ (by decide) rfl).1,
    (h2.2.2.2.1 (by decide)).1⟩

/-- Complete case characterization of the load-by-path endpoint on a
present body. -/
theorem load_file_endpoint_eq (fs : String → FSView)
    (readers : String → FileFormat → Except Exc DataFrame)
    (to_html : DataFrame → String) (p : String) (st : AppState) :
    load_file_endpoint fs readers to_html (some p) st =
      if (fs p).present = false then (404, st)
      else if (fs p).is_file = false then (400, st)
      else if (fs p).readable = false then (400, st)
      else
        match load_data (readers p) p with
        | .error _ => (400, st)
        | .ok df => (200, ⟨df, mkFileInfo (pathName p) p df, to_html df⟩) := by
  by_cases h1 : (fs p).present = true
  · by_cases h2 : (fs p).is_file = true
    · by_cases h3 : (fs p).readable = true
      · have hv : validate_file_path fs p = .ok p := by
          rw [validate_file_path, if_neg (by simp [h1]), if_neg (by simp [h2]),
            if_neg (by simp [h3])]
        simp only [load_file_endpoint, hv]
        cases hload : load_data (readers p) p with
        | ok df => simp [h1, h2, h3, hload]
        | error e =>
          have hk := load_data_error_kind (readers p) p e hload
          cases e with
          | mk kind msg =>
            simp only at hk
            subst hk
            simp [h1, h2, h3, hload]
      · have h3f : (fs p).readable = false := Bool.eq_false_iff.mpr h3
        have hv : validate_file_path fs p =
            .error ⟨.permissionError, "File is not readable: " ++ p⟩ := by
          rw [validate_file_path, if_neg (by simp [h1]), if_neg (by simp [h2]),
            if_pos (by simp [h3f])]
        simp [load_file_endpoint, hv, h1, h2, h3f]
    · have h2f : (fs p).is_file = false := Bool.eq_false_iff.mpr h2
      have hv : validate_file_path fs p =
          .error ⟨.valueError, "Path is not a file: " ++ p⟩ := by
        rw [validate_file_path, if_neg (by simp [h1]), if_pos (by simp [h2f])]
      simp [load_file_endpoint, hv, h1, h2f]
  · have h1f : (fs p).present = false := Bool.eq_false_iff.mpr h1
    have hv : validate_file_path fs p =
        .error ⟨.fileNotFoundError, "File not found: " ++ p⟩ := by
      rw [validate_file_path, if_pos (by simp [h1f])]
    simp [load_file_endpoint, hv, h1f]

/-- Complete case characterization of the upload endpoint on a present
upload. -/
theorem upload_file_endpoint_eq (secure_name : String → String)
    (readers : FileFormat → Except Exc DataFrame) (to_html : DataFrame → String)
    (fn : String) (sz : Nat) (st : AppState) :
    upload_file_endpoint secure_name readers to_html (some (fn, sz)) st =
      if fn = "" then (400, st)
      else if (validate_uploaded_file (secure_name fn) sz 100).1 = false then (400, st)
      else
        match load_data_from_file_storage readers (secure_name fn) with
        | .error _ => (400, st)
        | .ok df =>
          if df.isEmpty then (400, st)
          else (200, ⟨df, mkFileInfo (secure_name fn) ("uploaded:" ++ secure_name fn) df,
            to_html df⟩) := by
  by_cases h1 : fn = ""
  · simp [upload_file_endpoint, h1]
  · by_cases h2 : (validate_uploaded_file (secure_name fn) sz 100).1 = true
    · simp only [upload_file_endpoint, if_neg h1, h2, if_true]
      cases hload : load_data_from_file_storage readers (secure_name fn) with
      | ok df => simp [h1, h2, hload]
      | error e =>
        have hk := load_storage_error_kind readers (secure_name fn) e hload
        cases e with
        | mk kind msg =>
          simp only at hk
          subst hk
          simp [h1, h2, hload]
    · have h2f : (validate_uploaded_file (secure_name fn) sz 100).1 = false :=
        Bool.eq_false_iff.mpr h2
      simp [upload_file_endpoint, h1, h2f]

/-- C6: the load-by-path endpoint answers 404 exactly when the path does
not exist; it answers 400 on a missing body, a non-file path, an
unreadable path, or a parse failure; every non-success response leaves the
state slot untouched, and a success response replaces the dataframe, the
file info and the rendered artifact together, consistently derived from
the one loaded dataframe. -/
theorem load_file_endpoint_spec (fs : String → FSView)
    (readers : String → FileFormat → Except Exc DataFrame)
    (to_html : DataFrame → String) (body : Option String) (st : AppState) :
    (body = none → load_file_endpoint fs readers to_html body st = (400, st)) ∧
    (∀ p, body = some p →
      ((load_file_endpoint fs readers to_html body st).1 = 404 ↔ (fs p).present = false)) ∧
    (∀ p, body = some p → (fs p).present = true → (fs p).is_file = false →
      load_file_endpoint fs readers to_html body st = (400, st)) ∧
    (∀ p, body = some p → (fs p).present = true → (fs p).is_file = true →
      (fs p).readable = false →
      load_file_endpoint fs readers to_html body st = (400, st)) ∧
    (∀ p e, body = some p → (fs p).present = true → (fs p).is_file = true →
      (fs p).readable = true → load_data (readers p) p = .error e →
      load_file_endpoint fs readers to_html body st = (400, st)) ∧
    ((load_file_endpoint fs readers to_html body st).1 ≠ 200 →
      (load_file_endpoint fs readers to_html body st).2 = st) ∧
    ((load_file_endpoint fs readers to_html body st).1 = 200 →
      ∃ p df, body = some p ∧ load_data (readers p) p = .ok df ∧
        (load_file_endpoint fs readers to_html body st).2 =
          ⟨df, mkFileInfo (pathName p) p df, to_html df⟩) := by
  refine ⟨?_, ?_, ?_, ?_, ?_, ?_, ?_⟩
  · intro h; subst h; rfl
  · intro p hp
    subst hp
    rw [load_file_endpoint_eq]
    by_cases h1 : (fs p).present = false
    · simp [h1]
    · rw [if_neg h1]
      by_cases h2 : (fs p).is_file = false
      · simp [h1, h2]
      · rw [if_neg h2]
        by_cases h3 : (fs p).readable = false
        · simp [h1, h3]
        · rw [if_neg h3]
          cases hload : load_data (readers p) p with
          | ok df => simp [h1]
          | error e => simp [h1]
  · intro p hp hpres hfile
    subst hp
    rw [load_file_endpoint_eq, if_neg (by simp [hpres]), if_pos hfile]
  · intro p hp hpres hfile hread
    subst hp
    rw [load_file_endpoint_eq, if_neg (by simp [hpres]), if_neg (by simp [hfile]),
      if_pos hread]
  · intro p e hp hpres hfile hread hload
    subst hp
    rw [load_file_endpoint_eq, if_neg (by simp [hpres]), if_neg (by simp [hfile]),
      if_neg (by simp [hread])]
    simp [hload]
  · cases body with
    | none => intro _; rfl
    | some p =>
      rw [load_file_endpoint_eq]
      by_cases h1 : (fs p).present = false
      · intro _; simp [h1]
      · rw [if_neg h1]
        by_cases h2 : (fs p).is_file = false
        · intro _; simp [h2]
        · rw [if_neg h2]
          by_cases h3 : (fs p).readable = false
          · intro _; simp [h3]
          · rw [if_neg h3]
            cases hload : load_data (readers p) p with
            | ok df => intro h; exact absurd rfl h
            | error e => intro _; rfl
  · cases body with
    | none => intro h; exact absurd h (by simp [load_file_endpoint])
    | some p =>
      rw [load_file_endpoint_eq]
      by_cases h1 : (fs p).present = false
      · rw [if_pos h1]; intro h; exact absurd h (by simp)
      · rw [if_neg h1]
        by_cases h2 : (fs p).is_file = false
        · rw [if_pos h2]; intro h; exact absurd h (by simp)
        · rw [if_neg h2]
          by_cases h3 : (fs p).readable = false
          · rw [if_pos h3]; intro h; exact absurd h (by simp)
          · rw [if_neg h3]
            cases hload : load_data (readers p) p with
            | ok df => intro _; exact ⟨p, df, rfl, hload, rfl⟩
            | error e => intro h; exact absurd h (by simp)

/-- Concrete instance of `load_file_endpoint_spec`: a missing path yields
404. -/
theorem load_file_endpoint_spec_witness :
    (load_file_endpoint (fun _ => ⟨false, true, true⟩) (fun _ _ => .ok ⟨1, [("a", "t")]⟩)
      (fun _ => "H") (some "/data/x.csv")
      ⟨⟨0, []⟩, ⟨"n", "p", 0, 0, [], []⟩, ""⟩).1 = 404 :=
  ((load_file_endpoint_spec (fun _ => ⟨false, true, true⟩) (fun _ _ => .ok ⟨1, [("a", "t")]⟩)
      (fun _ => "H") (some "/data/x.csv")
      ⟨⟨0, []⟩, ⟨"n", "p", 0, 0, [], []⟩, ""⟩).2.1 "/data/x.csv" rfl).mpr rfl

/-- C7: the upload endpoint answers 400 whenever no file is supplied, the
filename is empty, the upload validator fails on the sanitized name, the
loader fails on the buffer, or the parsed dataframe is empty; every such
failure leaves the state slot untouched, and only when validation, parse
and the non-emptiness check all succeed are the three state-slot fields
replaced together, consistently derived from the uploaded dataframe. -/
theorem upload_file_endpoint_spec (secure_name : String → String)
    (readers : FileFormat → Except Exc DataFrame) (to_html : DataFrame → String)
    (upload : Option (String × Nat)) (st : AppState) :
    (upload = none → upload_file_endpoint secure_name readers to_html upload st = (400, st)) ∧
    (∀ fn sz, upload = some (fn, sz) → fn = "" →
      upload_file_endpoint secure_name readers to_html upload st = (400, st)) ∧
    (∀ fn sz, upload = some (fn, sz) →
      (validate_uploaded_file (secure_name fn) sz 100).1 = false →
      upload_file_endpoint secure_name readers to_html upload st = (400, st)) ∧
    (∀ fn sz e, upload = some (fn, sz) →
      load_data_from_file_storage readers (secure_name fn) = .error e →
      upload_file_endpoint secure_name readers to_html upload st = (400, st)) ∧
    (∀ fn sz df, upload = some (fn, sz) →
      load_data_from_file_storage readers (secure_name fn) = .ok df → df.isEmpty = true →
      upload_file_endpoint secure_name readers to_html upload st = (400, st)) ∧
    ((upload_file_endpoint secure_name readers to_html upload st).1 ≠ 200 →
      (upload_file_endpoint secure_name readers to_html upload st).2 = st) ∧
    ((upload_file_endpoint secure_name readers to_html upload st).1 = 200 →
      ∃ fn sz df, upload = some (fn, sz) ∧ fn ≠ "" ∧
        (validate_uploaded_file (secure_name fn) sz 100).1 = true ∧
        load_data_from_file_storage readers (secure_name fn) = .ok df ∧
        df.isEmpty = false ∧
        (upload_file_endpoint secure_name readers to_html upload st).2 =
          ⟨df, mkFileInfo (secure_name fn) ("uploaded:" ++ secure_name fn) df,
            to_html df⟩) := by
  refine ⟨?_, ?_, ?_, ?_, ?_, ?_, ?_⟩
  · intro h; subst h; rfl
  · intro fn sz hup hfn
    subst hup
    rw [upload_file_endpoint_eq, if_pos hfn]
  · intro fn sz hup hval
    subst hup
    rw [upload_file_endpoint_eq]
    by_cases h1 : fn = ""
    · rw [if_pos h1]
    · rw [if_neg h1, if_pos hval]
  · intro fn sz e hup hload
    subst hup
    rw [upload_file_endpoint_eq]
    by_cases h1 : fn = ""
    · rw [if_pos h1]
    · rw [if_neg h1]
      by_cases h2 : (validate_uploaded_file (secure_name fn) sz 100).1 = false
      · rw [if_pos h2]
      · rw [if_neg h2]
        simp [hload]
  · intro fn sz df hup hload hempty
    subst hup
    rw [upload_file_endpoint_eq]
    by_cases h1 : fn = ""
    · rw [if_pos h1]
    · rw [if_neg h1]
      by_cases h2 : (validate_uploaded_file (secure_name fn) sz 100).1 = false
      · rw [if_pos h2]
      · rw [if_neg h2]
        simp [hload, hempty]
  · cases upload with
    | none => intro _; rfl
    | some fs2 =>
      obtain ⟨fn, sz⟩ := fs2
      rw [upload_file_endpoint_eq]
      by_cases h1 : fn = ""
      · rw [if_pos h1]; intro _; rfl
      · rw [if_neg h1]
        by_cases h2 : (validate_uploaded_file (secure_name fn) sz 100).1 = false
        · rw [if_pos h2]; intro _; rfl
        · rw [if_neg h2]
          cases hload : load_data_from_file_storage readers (secure_name fn) with
          | error e => intro _; rfl
          | ok df =>
            by_cases h3 : df.isEmpty = true
            · simp [h3]
            · simp only [Bool.eq_false_iff.mpr h3, if_false]
              intro h; exact absurd rfl h
  · cases upload with
    | none => intro h; exact absurd h (by simp [upload_file_endpoint])
    | some fs2 =>
      obtain ⟨fn, sz⟩ := fs2
      rw [upload_file_endpoint_eq]
      by_cases h1 : fn = ""
      · rw [if_pos h1]; intro h; exact absurd h (by simp)
      · rw [if_neg h1]
        by_cases h2 : (validate_uploaded_file (secure_name fn) sz 100).1 = false
        · rw [if_pos h2]; intro h; exact absurd h (by simp)
        · rw [if_neg h2]
          have h2t : (validate_uploaded_file (secure_name fn) sz 100).1 = true := by
            cases hv : (validate_uploaded_file (secure_name fn) sz 100).1 with
            | false => exact absurd hv h2
            | true => rfl
          cases hload : load_data_from_file_storage readers (secure_name fn) with
          | error e => intro h; exact absurd h (by simp)
          | ok df =>
            by_cases h3 : df.isEmpty = true
            · intro h; exact absurd h (by simp [h3])
            · have h3f : df.isEmpty = false := Bool.eq_false_iff.mpr h3
              intro _
              refine ⟨fn, sz, df, rfl, h1, h2t, hload, h3f, ?_⟩
              simp [h3f]

/-- Concrete instance of `upload_file_endpoint_spec`: a path-traversal
filename is rejected with 400 and the state is unchanged. -/
theorem upload_file_endpoint_spec_witness :
    upload_file_endpoint (fun s => s) (fun _ => .ok ⟨1, [("a", "t")]⟩) (fun _ => "H")
      (some ("../x.csv", 10)) ⟨⟨0, []⟩, ⟨"n", "p", 0, 0, [], []⟩, ""⟩ =
      (400, ⟨⟨0, []⟩, ⟨"n", "p", 0, 0, [], []⟩, ""⟩) :=
  (upload_file_endpoint_spec (fun s => s) (fun _ => .ok ⟨1, [("a", "t")]⟩) (fun _ => "H")
      (some ("../x.csv", 10)) ⟨⟨0, []⟩, ⟨"n", "p", 0, 0, [], []⟩, ""⟩).2.2.1
    "../x.csv" 10 rfl (by decide)

/-- C10: the load-by-path endpoint never rejects an empty parsed dataframe
— a readable path parsing to zero rows still replaces the state slot and
answers 200 — whereas the upload endpoint answers 400 on an empty
dataframe and leaves the state unchanged. -/
theorem load_path_accepts_empty_dataset (fs : String → FSView)
    (readers : String → FileFormat → Except Exc DataFrame)
    (to_html : DataFrame → String) (p : String) (st : AppState)
    (secure_name : String → String) (readersU : FileFormat → Except Exc DataFrame)
    (fn : String) (sz : Nat) (df dfU : DataFrame)
    (h1 : (fs p).present = true) (h2 : (fs p).is_file = true) (h3 : (fs p).readable = true)
    (h4 : load_data (readers p) p = .ok df) (h5 : df.nrows = 0)
    (h6 : load_data_from_file_storage readersU (secure_name fn) = .ok dfU)
    (h7 : dfU.isEmpty = true) :
    load_file_endpoint fs readers to_html (some p) st =
      (200, ⟨df, mkFileInfo (pathName p) p df, to_html df⟩) ∧
    upload_file_endpoint secure_name readersU to_html (some (fn, sz)) st = (400, st) := by
  constructor
  · rw [load_file_endpoint_eq, if_neg (by simp [h1]), if_neg (by simp [h2]),
      if_neg (by simp [h3])]
    simp [h4]
  · rw [upload_file_endpoint_eq]
    by_cases hfn : fn = ""
    · rw [if_pos hfn]
    · rw [if_neg hfn]
      by_cases hv : (validate_uploaded_file (secure_name fn) sz 100).1 = false
      · rw [if_pos hv]
      · rw [if_neg hv]
        simp [h6, h7]

/-- Concrete instance of `load_path_accepts_empty_dataset`: a zero-row CSV
is accepted by the load-by-path endpoint but the same dataframe is
rejected by the upload endpoint. -/
theorem load_path_accepts_empty_dataset_witness :
    load_file_endpoint (fun _ => ⟨true, true, true⟩) (fun _ _ => .ok ⟨0, [("a", "t")]⟩)
      (fun _ => "H") (some "/data/x.csv") ⟨⟨3, [("b", "t")]⟩, ⟨"n", "p", 3, 1, ["b"], [("b", "t")]⟩, "G"⟩ =
      (200, ⟨⟨0, [("a", "t")]⟩, mkFileInfo (pathName "/data/x.csv") "/data/x.csv" ⟨0, [("a", "t")]⟩,
        "H"⟩) ∧
    upload_file_endpoint (fun s => s) (fun _ => .ok ⟨0, [("a", "t")]⟩) (fun _ => "H")
      (some ("x.csv", 10)) ⟨⟨3, [("b", "t")]⟩, ⟨"n", "p", 3, 1, ["b"], [("b", "t")]⟩, "G"⟩ =
      (400, ⟨⟨3, [("b", "t")]⟩, ⟨"n", "p", 3, 1, ["b"], [("b", "t")]⟩, "G"⟩) :=
  load_path_accepts_empty_dataset (fun _ => ⟨true, true, true⟩)
    (fun _ _ => .ok ⟨0, [("a", "t")]⟩) (fun _ => "H") "/data/x.csv"
    ⟨⟨3, [("b", "t")]⟩, ⟨"n", "p", 3, 1, ["b"], [("b", "t")]⟩, "G"⟩
    (fun s => s) (fun _ => .ok ⟨0, [("a", "t")]⟩) "x.csv" 10
    ⟨0, [("a", "t")]⟩ ⟨0, [("a", "t")]⟩ rfl rfl rfl rfl rfl rfl (by decide)

/-- The invariant holds initially. -/
theorem sysInv_init (oldT newT : SlotTriple) : SysInv oldT newT (initConfig oldT) := by
  simp [SysInv, initConfig]

/-- The invariant is preserved by every interleaved step. -/
theorem sysInv_step {oldT newT : SlotTriple} {c c2 : SysConfig}
    (hs : SysStep newT c c2) (hinv : SysInv oldT newT c) : SysInv oldT newT c2 := by
  obtain ⟨odf, oinfo, ohtml⟩ := oldT
  obtain ⟨ndf, ninfo, nhtml⟩ := newT
  obtain ⟨hw5, hr5, hlw, hlr, hsl0, hsl2, hsl3, hsl4, ho1, ho2, ho3, ho4, ho5⟩ := hinv
  cases hs with
  | wAcquire h hl =>
    have hrn : ¬(1 ≤ c.rpc ∧ c.rpc ≤ 4) := by
      intro hc
      have h2 := hlr.mpr hc
      rw [hl] at h2
      exact absurd h2 (by simp)
    unfold SysInv
    dsimp only
    refine ⟨by omega, hr5, by simp, ?_, ?_, ?_, ?_, ?_, ho1, ho2, ho3, ho4, ho5⟩
    · constructor
      · intro hx; exact absurd hx (by simp)
      · intro hc; exact absurd hc hrn
    · intro _; exact hsl0 (by omega)
    · intro hx; omega
    · intro hx; omega
    · intro hx; omega
  | wSetDf h =>
    have hlock : c.lockOwner = some true := hlw.mpr ⟨by omega, by omega⟩
    have hrn : ¬(1 ≤ c.rpc ∧ c.rpc ≤ 4) := by
      intro hc
      have h2 := hlr.mpr hc
      rw [hlock] at h2
      exact absurd h2 (by simp)
    unfold SysInv
    dsimp only
    refine ⟨by omega, hr5, ?_, ?_, ?_, ?_, ?_, ?_, ho1, ?_, ?_, ?_, ho5⟩
    · rw [hlock]; simp
    · rw [hlock]
      constructor
      · intro hx; exact absurd hx (by simp)
      · intro hc; exact absurd hc hrn
    · intro hx; omega
    · intro _; rw [hsl0 (by omega)]
    · intro hx; omega
    · intro hx; omega
    · intro hx; exact absurd ⟨by omega, by omega⟩ hrn
    · intro hx; exact absurd ⟨by omega, by omega⟩ hrn
    · intro hx; exact absurd ⟨by omega, by omega⟩ hrn
  | wSetInfo h =>
    have hlock : c.lockOwner = some true := hlw.mpr ⟨by omega, by omega⟩
    have hrn : ¬(1 ≤ c.rpc ∧ c.rpc ≤ 4) := by
      intro hc
      have h2 := hlr.mpr hc
      rw [hlock] at h2
      exact absurd h2 (by simp)
    unfold SysInv
    dsimp only
    refine ⟨by omega, hr5, ?_, ?_, ?_, ?_, ?_, ?_, ho1, ?_, ?_, ?_, ho5⟩
    · rw [hlock]; simp
    · rw [hlock]
      constructor
      · intro hx; exact absurd hx (by simp)
      · intro hc; exact absurd hc hrn
    · intro hx; omega
    · intro hx; omega
    · intro _; rw [hsl2 h]
    · intro hx; omega
    · intro hx; exact absurd ⟨by omega, by omega⟩ hrn
    · intro hx; exact absurd ⟨by omega, by omega⟩ hrn
    · intro hx; exact absurd ⟨by omega, by omega⟩ hrn
  | wSetHtml h =>
    have hlock : c.lockOwner = some true := hlw.mpr ⟨by omega, by omega⟩
    have hrn : ¬(1 ≤ c.rpc ∧ c.rpc ≤ 4) := by
      intro hc
      have h2 := hlr.mpr hc
      rw [hlock] at h2
      exact absurd h2 (by simp)
    unfold SysInv
    dsimp only
    refine ⟨by omega, hr5, ?_, ?_, ?_, ?_, ?_, ?_, ho1, ?_, ?_, ?_, ho5⟩
    · rw [hlock]; simp
    · rw [hlock]
      constructor
      · intro hx; exact absurd hx (by simp)
      · intro hc; exact absurd hc hrn
    · intro hx; omega
    · intro hx; omega
    · intro hx; omega
    · intro _; rw [hsl3 h]
    · intro hx; exact absurd ⟨by omega, by omega⟩ hrn
    · intro hx; exact absurd ⟨by omega, by omega⟩ hrn
    · intro hx; exact absurd ⟨by omega, by omega⟩ hrn
  | wRelease h =>
    have hlock : c.lockOwner = some true := hlw.mpr ⟨by omega, by omega⟩
    have hrn : ¬(1 ≤ c.rpc ∧ c.rpc ≤ 4) := by
      intro hc
      have h2 := hlr.mpr hc
      rw [hlock] at h2
      exact absurd h2 (by simp)
    unfold SysInv
    dsimp only
    refine ⟨by omega, hr5, ?_, ?_, ?_, ?_, ?_, ?_, ho1, ho2, ho3, ho4, ho5⟩
    · constructor
      · intro hx; exact absurd hx (by simp)
      · intro hc; omega
    · constructor
      · intro hx; exact absurd hx (by simp)
      · intro hc; exact absurd hc hrn
    · intro hx; omega
    · intro hx; omega
    · intro hx; omega
    · intro _; exact hsl4 (by omega)
  | rAcquire h hl =>
    have hwn : ¬(1 ≤ c.wpc ∧ c.wpc ≤ 4) := by
      intro hc
      have h2 := hlw.mpr hc
      rw [hl] at h2
      exact absurd h2 (by simp)
    unfold SysInv
    dsimp only
    refine ⟨hw5, by omega, ?_, by simp, hsl0, hsl2, hsl3, hsl4, ?_, ?_, ?_, ?_, ?_⟩
    · constructor
      · intro hx; exact absurd hx (by simp)
      · intro hc; exact absurd hc hwn
    · intro _; exact ho1 (by omega)
    · intro hx; omega
    · intro hx; omega
    · intro hx; omega
    · intro hx; omega
  | rReadDf h =>
    have hlock : c.lockOwner = some false := hlr.mpr ⟨by omega, by omega⟩
    have hwn : ¬(1 ≤ c.wpc ∧ c.wpc ≤ 4) := by
      intro hc
      have h2 := hlw.mpr hc
      rw [hlock] at h2
      exact absurd h2 (by simp)
    unfold SysInv
    dsimp only
    refine ⟨hw5, by omega, ?_, ?_, hsl0, hsl2, hsl3, hsl4, ?_, ?_, ?_, ?_, ?_⟩
    · rw [hlock]
      constructor
      · intro hx; exact absurd hx (by simp)
      · intro hc; exact absurd hc hwn
    · rw [hlock]; simp
    · intro hx; omega
    · intro _; exact ⟨rfl, (ho1 (by omega)).2.1, (ho1 (by omega)).2.2⟩
    · intro hx; omega
    · intro hx; omega
    · intro hx; omega
  | rReadInfo h =>
    have hlock : c.lockOwner = some false := hlr.mpr ⟨by omega, by omega⟩
    have hwn : ¬(1 ≤ c.wpc ∧ c.wpc ≤ 4) := by
      intro hc
      have h2 := hlw.mpr hc
      rw [hlock] at h2
      exact absurd h2 (by simp)
    unfold SysInv
    dsimp only
    refine ⟨hw5, by omega, ?_, ?_, hsl0, hsl2, hsl3, hsl4, ?_, ?_, ?_, ?_, ?_⟩
    · rw [hlock]
      constructor
      · intro hx; exact absurd hx (by simp)
      · intro hc; exact absurd hc hwn
    · rw [hlock]; simp
    · intro hx; omega
    · intro hx; omega
    · intro _; exact ⟨(ho2 h).1, rfl, (ho2 h).2.2⟩
    · intro hx; omega
    · intro hx; omega
  | rReadHtml h =>
    have hlock : c.lockOwner = some false := hlr.mpr ⟨by omega, by omega⟩
    have hwn : ¬(1 ≤ c.wpc ∧ c.wpc ≤ 4) := by
      intro hc
      have h2 := hlw.mpr hc
      rw [hlock] at h2
      exact absurd h2 (by simp)
    unfold SysInv
    dsimp only
    refine ⟨hw5, by omega, ?_, ?_, hsl0, hsl2, hsl3, hsl4, ?_, ?_, ?_, ?_, ?_⟩
    · rw [hlock]
      constructor
      · intro hx; exact absurd hx (by simp)
      · intro hc; exact absurd hc hwn
    · rw [hlock]; simp
    · intro hx; omega
    · intro hx; omega
    · intro hx; omega
    · intro _; exact ⟨(ho3 h).1, (ho3 h).2.1, rfl⟩
    · intro hx; omega
  | rRelease h =>
    have hlock : c.lockOwner = some false := hlr.mpr ⟨by omega, by omega⟩
    have hwn : ¬(1 ≤ c.wpc ∧ c.wpc ≤ 4) := by
      intro hc
      have h2 := hlw.mpr hc
      rw [hlock] at h2
      exact absurd h2 (by simp)
    unfold SysInv
    dsimp only
    refine ⟨hw5, by omega, ?_, ?_, hsl0, hsl2, hsl3, hsl4, ?_, ?_, ?_, ?_, ?_⟩
    · constructor
      · intro hx; exact absurd hx (by simp)
      · intro hc; exact absurd hc hwn
    · constructor
      · intro hx; exact absurd hx (by simp)
      · intro hc; omega
    · intro hx; omega
    · intro hx; omega
    · intro hx; omega
    · intro hx; omega
    · intro _
      have hobs := ho4 h
      rcases (show c.wpc ≤ 1 ∨ 4 ≤ c.wpc by omega) with hw | hw
      · left
        refine ⟨?_, ?_, ?_⟩
        · rw [hobs.1, hsl0 hw]
        · rw [hobs.2.1, hsl0 hw]
        · rw [hobs.2.2, hsl0 hw]
      · right
        refine ⟨?_, ?_, ?_⟩
        · rw [hobs.1, hsl4 hw]
        · rw [hobs.2.1, hsl4 hw]
        · rw [hobs.2.2, hsl4 hw]

/-- C8: in the interleaving model of one in-flight load/upload writer and
one concurrent reader, both guarded by the single state lock, a reader
that has finished observes either the complete old triple or the complete
new triple — never a torn mixture — and therefore a FileInfo that
describes exactly the dataframe it was swapped in with. -/
theorem state_slot_never_torn (oldT newT : SlotTriple) (c : SysConfig)
    (hold : oldT.consistent) (hnew : newT.consistent)
    (hreach : SysReachable newT oldT c) (hdone : c.rpc = 5) :
    ∃ t : SlotTriple, (t = oldT ∨ t = newT) ∧ t.consistent ∧
      c.obsDf = some t.df ∧ c.obsInfo = some t.info ∧ c.obsHtml = some t.html := by
  have hinv : SysInv oldT newT c := by
    clear hdone
    induction hreach with
    | refl => exact sysInv_init oldT newT
    | tail hr hs ih => exact sysInv_step hs ih
  obtain ⟨-, -, -, -, -, -, -, -, -, -, -, -, ho5⟩ := hinv
  rcases ho5 hdone with ⟨h1, h2, h3⟩ | ⟨h1, h2, h3⟩
  · exact ⟨oldT, Or.inl rfl, hold, h1, h2, h3⟩
  · exact ⟨newT, Or.inr rfl, hnew, h1, h2, h3⟩

/-- Concrete instance of `state_slot_never_torn`: a reader that runs its
whole critical section before the writer's sees the complete old triple. -/
theorem state_slot_never_torn_witness :
    ∃ t : SlotTriple,
      (t = ⟨⟨0, []⟩, ⟨"o", "p", 0, 0, [], []⟩, "A"⟩ ∨
       t = ⟨⟨1, [("a", "t")]⟩, ⟨"n", "q", 1, 1, ["a"], [("a", "t")]⟩, "B"⟩) ∧
      t.consistent ∧
      (⟨0, 5, none, ⟨⟨0, []⟩, ⟨"o", "p", 0, 0, [], []⟩, "A"⟩,
        some ⟨0, []⟩, some ⟨"o", "p", 0, 0, [], []⟩, some "A"⟩ : SysConfig).obsDf = some t.df ∧
      (⟨0, 5, none, ⟨⟨0, []⟩, ⟨"o", "p", 0, 0, [], []⟩, "A"⟩,
        some ⟨0, []⟩, some ⟨"o", "p", 0, 0, [], []⟩, some "A"⟩ : SysConfig).obsInfo = some t.info ∧
      (⟨0, 5, none, ⟨⟨0, []⟩, ⟨"o", "p", 0, 0, [], []⟩, "A"⟩,
        some ⟨0, []⟩, some ⟨"o", "p", 0, 0, [], []⟩, some "A"⟩ : SysConfig).obsHtml = some t.html :=
  state_slot_never_torn ⟨⟨0, []⟩, ⟨"o", "p", 0, 0, [], []⟩, "A"⟩
    ⟨⟨1, [("a", "t")]⟩, ⟨"n", "q", 1, 1, ["a"], [("a", "t")]⟩, "B"⟩
    ⟨0, 5, none, ⟨⟨0, []⟩, ⟨"o", "p", 0, 0, [], []⟩, "A"⟩,
      some ⟨0, []⟩, some ⟨"o", "p", 0, 0, [], []⟩, some "A"⟩
    ⟨rfl, rfl, rfl⟩ ⟨rfl, rfl, rfl⟩
    (.tail (.tail (.tail (.tail (.tail .refl (.rAcquire _ rfl rfl)) (.rReadDf _ rfl))
      (.rReadInfo _ rfl)) (.rReadHtml _ rfl)) (.rRelease _ rfl))
    rfl
